import Mathlib

/-! # Model of the sunvoy-challenge user scraper

Shallow embedding of `src/index.ts`. The script authenticates against a web
application, fetches a user list from a JSON endpoint, scrapes one extra
"current user" record from a browser-rendered settings page, and writes the
concatenation to an output file.

All effects are made explicit: an `Env` value supplies everything the outside
world would answer during one run (the session file's parsed content, the
login page's input fields, the login-submission response, the users-endpoint
response, and the input fields of the rendered settings form), and each
function of the script is translated to a pure function that also returns the
list of observable request/write events it performs.
-/

namespace Sunvoy

/-- Character-list test: does `t` start with `pat`?  Helper for the model of
JavaScript's `String.prototype.includes`. -/
def charsStartWith : List Char → List Char → Bool
  | _, [] => true
  | [], _ :: _ => false
  | a :: as, b :: bs => a == b && charsStartWith as bs

/-- Character-list test: does `t` contain `pat` as a contiguous substring? -/
def charsContain : List Char → List Char → Bool
  | [], pat => pat.isEmpty
  | a :: rest, pat => charsStartWith (a :: rest) pat || charsContain rest pat

/-- Models JavaScript `s.includes(pat)` (used as `c.key?.includes("session")`
in `hasValidSession`). -/
def strIncludes (s pat : String) : Bool :=
  charsContain s.data pat.data

/-- The `User` interface of `index.ts`: four fields, each `string | undefined`,
modelled as `Option String`. -/
structure User where
  id : Option String
  firstName : Option String
  lastName : Option String
  email : Option String
deriving DecidableEq, Repr

/-- One cookie of the tough-cookie jar.  `expires` is `none` for the
tough-cookie value `"Infinity"` (no expiry) and `some ms` for a concrete
expiry instant in milliseconds since the epoch (`new Date(...).getTime()`). -/
structure Cookie where
  key : String
  value : String
  domain : Option String
  path : Option String
  expires : Option Int
  secure : Bool
  httpOnly : Bool
deriving DecidableEq, Repr

/-- The `CookieParam` shape handed to `page.setCookie` in `fetchData`.
`expires` is in (possibly fractional) seconds since the epoch, `-1` being the
sentinel for "no expiry". -/
structure PuppeteerCookie where
  name : String
  value : String
  domain : Option String
  path : Option String
  expires : ℚ
  secure : Bool
  httpOnly : Bool
deriving DecidableEq, Repr

/-- An `<input>` element of a rendered page, as seen through cheerio:
`value` is `none` when the element has no value (cheerio's `.val()` returns
`undefined` there). -/
structure Input where
  name : String
  value : Option String
deriving DecidableEq, Repr

/-- The login-submission response: HTTP status plus the parsed `Set-Cookie`
headers (`authRes.headers.getSetCookie()` followed by tough-cookie parsing). -/
structure AuthResponse where
  status : Nat
  setCookies : List Cookie
deriving DecidableEq, Repr

/-- The users-endpoint response: HTTP status plus the JSON-parsed body
(`usersResponse.json()` typed as `User[]`, no further validation). -/
structure UsersResponse where
  status : Nat
  body : List User
deriving DecidableEq, Repr

/-- Everything the outside world supplies during one run.  `sessionFile` is
`none` when `cookies.json` is absent or unparseable; `now` is the current
time in milliseconds, used only by the cookie jar's expiry semantics;
`prevOutput` is the content of `users.json` left by an earlier run. -/
structure Env where
  now : Int
  sessionFile : Option (List Cookie)
  loginInputs : List Input
  authResp : AuthResponse
  usersResp : UsersResponse
  settingsInputs : List Input
  prevOutput : Option (List User)
deriving DecidableEq, Repr

/-- Host of `config.domain` (`https://challenge.sunvoy.com`). -/
def targetHost : String := "challenge.sunvoy.com"

/-- Observable events of one run, in the order the script performs them. -/
inductive Event where
  | loginPageRequest
  | loginSubmit
  | sessionWrite
  | usersFetch
  | settingsNav
  | outputWrite
deriving DecidableEq, Repr

/-- Models the tough-cookie library: RFC 6265 domain matching of a stored
cookie's domain against a request host (host-only subtleties and IP addresses
aside, a cookie matches when its domain equals the host or is a dot-separated
suffix of it).  Library behaviour, not repository code. -/
def domainMatches (cd : Option String) (host : String) : Bool :=
  match cd with
  | none => false
  | some d => d == host || charsStartWith host.data.reverse (('.' :: d.data).reverse)

/-- Models the tough-cookie library: a cookie with a concrete expiry instant
at or before `now` is expired; a cookie with no expiry never is. -/
def cookieExpired (now : Int) (c : Cookie) : Bool :=
  match c.expires with
  | none => false
  | some t => decide (t ≤ now)

/-- Models the tough-cookie library's `jar.getCookies(url)`: the cookies of
the jar whose domain matches the url's host and which are not expired at
`now` (the library filters expired cookies out by default; path matching is
omitted because `config.domain` has path `/`, which every cookie path
matches). -/
def getCookies (now : Int) (jar : List Cookie) (host : String) : List Cookie :=
  jar.filter (fun c => domainMatches c.domain host && !cookieExpired now c)

/-- The `loadCookies` function: read and parse `cookies.json`; on any failure
the catch block leaves the initially empty jar in place. -/
def loadCookies (env : Env) : List Cookie :=
  match env.sessionFile with
  | some jar => jar
  | none => []

/-- The `hasValidSession` function: fetch the jar's cookies for
`config.domain` and test whether one of them has `"session"` in its key. -/
def hasValidSession (now : Int) (jar : List Cookie) : Bool :=
  ((getCookies now jar targetHost).find? (fun c => strIncludes c.key "session")).isSome

/-- The nonce lookup `$('input[name="nonce"]').val()` of `authenticate`:
cheerio's `.val()` reads the value of the first element matching the
selector, `undefined` when the selection is empty or the element has no
value. -/
def findNonce (inputs : List Input) : Option String :=
  (inputs.find? (fun i => i.name == "nonce")).bind (fun i => i.value)

/-- The three `throw new Error(...)` sites of the script. -/
inductive Err where
  | protocolError
  | authenticationError
  | fetchError
deriving DecidableEq, Repr

/-- Models tough-cookie's `jar.setCookie`: a cookie replaces any stored
cookie with the same key, domain and path, otherwise it is appended. -/
def setCookieJar (jar : List Cookie) (c : Cookie) : List Cookie :=
  (jar.filter (fun old => !(old.key == c.key && old.domain == c.domain && old.path == c.path))) ++ [c]

/-- The cookie-merging loop at the end of `authenticate`: each `Set-Cookie`
header is stored into the jar in order. -/
def mergeCookies (jar : List Cookie) (cs : List Cookie) : List Cookie :=
  cs.foldl setCookieJar jar

/-- The `authenticate` function: GET the login page; abort when the nonce
value is not a string; POST the credentials with redirects disabled; abort
unless the status is exactly 302 and at least one `Set-Cookie` header came
back; otherwise merge all returned cookies into the jar.  The first component
is the trace of requests issued. -/
def authenticate (env : Env) (jar : List Cookie) : List Event × Except Err (List Cookie) :=
  match findNonce env.loginInputs with
  | none => ([Event.loginPageRequest], Except.error Err.protocolError)
  | some _ =>
    if env.authResp.status != 302 || env.authResp.setCookies.isEmpty then
      ([Event.loginPageRequest, Event.loginSubmit], Except.error Err.authenticationError)
    else
      ([Event.loginPageRequest, Event.loginSubmit],
        Except.ok (mergeCookies jar env.authResp.setCookies))

/-- Models the fetch API's `Response.ok`: status in the 2xx range. -/
def respOk (status : Nat) : Bool :=
  decide (200 ≤ status) && decide (status ≤ 299)

/-- Models JavaScript `v || ""` applied to a `.val()` result: `undefined` and
the empty string both yield `""`; any other string passes through. -/
def jsOrEmpty (v : Option String) : String :=
  match v with
  | none => ""
  | some s => if s == "" then "" else s

/-- The `inputs.eq(i).val()` lookup of `fetchData`: the value of the i-th
input of the `$("form input")` selection, `undefined` when the index is out
of range or the input has no value. -/
def inputVal (inputs : List Input) (i : Nat) : Option String :=
  (inputs.get? i).bind (fun inp => inp.value)

/-- The `currentUser` record built in `fetchData`: the values of the first
four inputs of the rendered settings form, by position, with `|| ""`
defaulting. -/
def scrapeCurrentUser (inputs : List Input) : User :=
  { id := some (jsOrEmpty (inputVal inputs 0))
    firstName := some (jsOrEmpty (inputVal inputs 1))
    lastName := some (jsOrEmpty (inputVal inputs 2))
    email := some (jsOrEmpty (inputVal inputs 3)) }

/-- The tough-cookie-to-puppeteer conversion of `fetchData`: names, values,
domain, path and the two boolean flags carry over; a concrete expiry in
milliseconds becomes seconds (`getTime() / 1000`); `"Infinity"` becomes the
sentinel `-1`. -/
def toPuppeteerCookie (c : Cookie) : PuppeteerCookie :=
  { name := c.key
    value := c.value
    domain := c.domain
    path := c.path
    expires :=
      match c.expires with
      | none => -1
      | some ms => (ms : ℚ) / 1000
    secure := c.secure
    httpOnly := c.httpOnly }

/-- The `page.setCookie` loop of `fetchData`: one call per converted cookie,
each carrying a single cookie, in jar order. -/
def setCookieCalls (now : Int) (jar : List Cookie) : List (List PuppeteerCookie) :=
  ((getCookies now jar targetHost).map toPuppeteerCookie).map (fun pc => [pc])

/-- State of the browser's cookie store after the `page.setCookie` loop:
each call appends the cookies it carries. -/
def pageCookieStore (now : Int) (jar : List Cookie) : List PuppeteerCookie :=
  (setCookieCalls now jar).foldl (fun store call => store ++ call) []

/-- The `fetchData` function: POST the users endpoint with the jar's cookies;
abort unless the response is ok (2xx); otherwise parse the body, render the
settings page, scrape the current user and return the concatenation.  The
first component is the trace of requests issued.  The cookie transfer into
the browser (`setCookieCalls`/`pageCookieStore`) does not alter the returned
data, so it does not appear in the result. -/
def fetchData (env : Env) (jar : List Cookie) : List Event × Except Err (List User) :=
  if !respOk env.usersResp.status then
    ([Event.usersFetch], Except.error Err.fetchError)
  else
    ([Event.usersFetch, Event.settingsNav],
      Except.ok (env.usersResp.body ++ [scrapeCurrentUser env.settingsInputs]))

/-- Outcome of one run: the events in order, the final cookie jar, the final
content of the output file (`prevOutput` when nothing was written this run),
and the error the run aborted with, if any. -/
structure RunResult where
  trace : List Event
  jar : List Cookie
  outputFile : Option (List User)
  error : Option Err
deriving DecidableEq, Repr

/-- The `main` function: load the session; when no valid session cookie is
present, authenticate and persist the jar; fetch the data; write the output
file.  Any thrown error aborts the run at that point. -/
def main (env : Env) : RunResult :=
  let jar0 := loadCookies env
  if hasValidSession env.now jar0 then
    match fetchData env jar0 with
    | (tr, Except.error e) =>
      { trace := tr, jar := jar0, outputFile := env.prevOutput, error := some e }
    | (tr, Except.ok data) =>
      { trace := tr ++ [Event.outputWrite], jar := jar0, outputFile := some data, error := none }
  else
    match authenticate env jar0 with
    | (tr, Except.error e) =>
      { trace := tr, jar := jar0, outputFile := env.prevOutput, error := some e }
    | (tr, Except.ok jar1) =>
      match fetchData env jar1 with
      | (tr2, Except.error e) =>
        { trace := tr ++ [Event.sessionWrite] ++ tr2, jar := jar1,
          outputFile := env.prevOutput, error := some e }
      | (tr2, Except.ok data) =>
        { trace := tr ++ [Event.sessionWrite] ++ tr2 ++ [Event.outputWrite], jar := jar1,
          outputFile := some data, error := none }

/-! ## Concrete environments used as witnesses and counterexamples -/

/-- A live session cookie for the target domain with no expiry. -/
def sessionCookie : Cookie :=
  { key := "session_token", value := "abc123", domain := some targetHost,
    path := some "/", expires := none, secure := true, httpOnly := true }

/-- A session cookie for the target domain that expired at t = 100 ms. -/
def expiredSessionCookie : Cookie :=
  { key := "session_token", value := "old", domain := some targetHost,
    path := some "/", expires := some 100, secure := true, httpOnly := true }

/-- A fresh session cookie as returned by a successful login submission. -/
def freshAuthCookie : Cookie :=
  { key := "sessionid", value := "new", domain := some targetHost,
    path := some "/", expires := none, secure := true, httpOnly := true }

/-- A cookie whose key does not contain `"session"`. -/
def csrfCookie : Cookie :=
  { key := "csrf_token", value := "tok", domain := some targetHost,
    path := some "/", expires := none, secure := true, httpOnly := true }

/-- The four inputs of the rendered settings form from the spec's example. -/
def fourInputs : List Input :=
  [{ name := "id", value := some "42" },
   { name := "firstName", value := some "John" },
   { name := "lastName", value := some "Doe" },
   { name := "email", value := some "john@doe.com" }]

/-- A run with a valid prior session, an empty user list and a well-formed
settings form. -/
def validEnv : Env :=
  { now := 0, sessionFile := some [sessionCookie], loginInputs := [],
    authResp := ⟨0, []⟩, usersResp := ⟨200, []⟩,
    settingsInputs := fourInputs, prevOutput := none }

/-- The spec's worked example: one list-endpoint user plus the scraped form. -/
def envExample : Env :=
  { validEnv with
    usersResp := ⟨200, [⟨some "1", some "A", some "B", some "a@b.com"⟩]⟩ }

/-- A run whose session file holds a session-named cookie that is already
expired at the run's current time. -/
def envExpiredSession : Env :=
  { now := 200, sessionFile := some [expiredSessionCookie],
    loginInputs := [⟨"nonce", some "n1"⟩],
    authResp := ⟨302, [freshAuthCookie]⟩, usersResp := ⟨200, []⟩,
    settingsInputs := fourInputs, prevOutput := none }

/-- A cold run (no session file) whose login succeeds and whose fetches
succeed. -/
def envNoSession : Env :=
  { now := 0, sessionFile := none,
    loginInputs := [⟨"nonce", some "n1"⟩],
    authResp := ⟨302, [freshAuthCookie]⟩, usersResp := ⟨200, []⟩,
    settingsInputs := fourInputs, prevOutput := none }

/-- A cold run whose login page carries two inputs named `nonce`, the first
without a value. -/
def envDupNonce : Env :=
  { envNoSession with loginInputs := [⟨"nonce", none⟩, ⟨"nonce", some "n123"⟩] }

/-- A cold run whose login submission redirects with one cookie, none of
whose keys contain `"session"`. -/
def envNonSessionCookie : Env :=
  { envNoSession with authResp := ⟨302, [csrfCookie]⟩ }

/-- A cold run whose login submission answers 200 with no cookies. -/
def envAuthFail : Env :=
  { envNoSession with authResp := ⟨200, []⟩, prevOutput := some [] }

/-- A cold run whose users endpoint answers 500, with a previous output file
present. -/
def envFetchFail : Env :=
  { envNoSession with usersResp := ⟨500, []⟩, prevOutput := some [] }

/-- A cold run whose login page has no inputs at all. -/
def envNoNonce : Env :=
  { envNoSession with loginInputs := [] }

/-- A valid-session run whose list endpoint returns one record with every
field undefined. -/
def envListUndef : Env :=
  { validEnv with usersResp := ⟨200, [⟨none, none, none, none⟩]⟩ }

/-! ## Run classification

Every run of `main` falls into exactly one of six shapes, according to the
session check, the nonce lookup, the login-submission response and the
users-endpoint response.  All claim theorems reduce to this case split. -/

lemma main_classify (env : Env) :
    (hasValidSession env.now (loadCookies env) = true ∧ respOk env.usersResp.status = false ∧
      main env = ⟨[Event.usersFetch], loadCookies env, env.prevOutput, some Err.fetchError⟩) ∨
    (hasValidSession env.now (loadCookies env) = true ∧ respOk env.usersResp.status = true ∧
      main env = ⟨[Event.usersFetch, Event.settingsNav, Event.outputWrite], loadCookies env,
        some (env.usersResp.body ++ [scrapeCurrentUser env.settingsInputs]), none⟩) ∨
    (hasValidSession env.now (loadCookies env) = false ∧ findNonce env.loginInputs = none ∧
      main env = ⟨[Event.loginPageRequest], loadCookies env, env.prevOutput,
        some Err.protocolError⟩) ∨
    (hasValidSession env.now (loadCookies env) = false ∧
      (findNonce env.loginInputs).isSome = true ∧
      (env.authResp.status != 302 || env.authResp.setCookies.isEmpty) = true ∧
      main env = ⟨[Event.loginPageRequest, Event.loginSubmit], loadCookies env, env.prevOutput,
        some Err.authenticationError⟩) ∨
    (hasValidSession env.now (loadCookies env) = false ∧
      (findNonce env.loginInputs).isSome = true ∧
      (env.authResp.status != 302 || env.authResp.setCookies.isEmpty) = false ∧
      respOk env.usersResp.status = false ∧
      main env = ⟨[Event.loginPageRequest, Event.loginSubmit, Event.sessionWrite,
          Event.usersFetch],
        mergeCookies (loadCookies env) env.authResp.setCookies, env.prevOutput,
        some Err.fetchError⟩) ∨
    (hasValidSession env.now (loadCookies env) = false ∧
      (findNonce env.loginInputs).isSome = true ∧
      (env.authResp.status != 302 || env.authResp.setCookies.isEmpty) = false ∧
      respOk env.usersResp.status = true ∧
      main env = ⟨[Event.loginPageRequest, Event.loginSubmit, Event.sessionWrite,
          Event.usersFetch, Event.settingsNav, Event.outputWrite],
        mergeCookies (loadCookies env) env.authResp.setCookies,
        some (env.usersResp.body ++ [scrapeCurrentUser env.settingsInputs]), none⟩) := by
  cases hv : hasValidSession env.now (loadCookies env)
  · cases hn : findNonce env.loginInputs
    · exact Or.inr (Or.inr (Or.inl ⟨rfl, rfl, by simp [main, authenticate, hv, hn]⟩))
    · cases hb : (env.authResp.status != 302 || env.authResp.setCookies.isEmpty)
      · cases hr : respOk env.usersResp.status
        · exact Or.inr (Or.inr (Or.inr (Or.inr (Or.inl ⟨rfl, by simp [hn], rfl, rfl,
            by simp [main, authenticate, fetchData, hv, hn, hb, hr]⟩))))
        · exact Or.inr (Or.inr (Or.inr (Or.inr (Or.inr ⟨rfl, by simp [hn], rfl, rfl,
            by simp [main, authenticate, fetchData, hv, hn, hb, hr]⟩))))
      · exact Or.inr (Or.inr (Or.inr (Or.inl ⟨rfl, by simp [hn], rfl,
          by simp [main, authenticate, hv, hn, hb]⟩)))
  · cases hr : respOk env.usersResp.status
    · exact Or.inl ⟨rfl, rfl, by simp [main, fetchData, hv, hr]⟩
    · exact Or.inr (Or.inl ⟨rfl, rfl, by simp [main, fetchData, hv, hr]⟩)

/-! ## Claim theorems -/

/-- C1: on every successful run the output file is exactly the sequence of
list-endpoint records followed by the one scraped current-user record, with
no deduplication or reordering; its length is the list-endpoint count plus
one and its last record is the scraped record, for every list size including
the empty list. -/
theorem output_concat_structure (env : Env) (h : (main env).error = none) :
    (main env).outputFile = some (env.usersResp.body ++ [scrapeCurrentUser env.settingsInputs]) ∧
    ∀ out, (main env).outputFile = some out →
      out.length = env.usersResp.body.length + 1 ∧
      out.getLast? = some (scrapeCurrentUser env.settingsInputs) := by
  rcases main_classify env with ⟨_, _, hm⟩ | ⟨_, _, hm⟩ | ⟨_, _, hm⟩ | ⟨_, _, _, hm⟩ |
    ⟨_, _, _, _, hm⟩ | ⟨_, _, _, _, hm⟩ <;> rw [hm] at h ⊢ <;>
    simp [List.getLast?_concat] at h ⊢

/-- C1 witness: a concrete successful run (valid session, empty user list)
on which the claim's hypothesis holds. -/
theorem output_concat_structure_witness :
    (main validEnv).error = none ∧
    (main validEnv).outputFile =
      some (validEnv.usersResp.body ++ [scrapeCurrentUser validEnv.settingsInputs]) :=
  ⟨by decide, (output_concat_structure validEnv (by decide)).1⟩

/-- Renaming the `name` attribute of every input leaves the positional
extraction unchanged: `inputVal` reads only positions and values. -/
lemma inputVal_map_name (inputs : List Input) (f : String → String) (i : Nat) :
    inputVal (inputs.map (fun inp => ⟨f inp.name, inp.value⟩)) i = inputVal inputs i := by
  unfold inputVal
  rw [List.get?_map]
  cases inputs.get? i <;> rfl

/-- C2: on the spec's worked example (one list-endpoint user, four inputs
valued 42/John/Doe/john@doe.com) the output file is the spec's two-element
array; and the scraper reads the four inputs purely by position — renaming
every input's `name` attribute never changes the scraped record. -/
theorem positional_scrape_example :
    (main envExample).outputFile = some
      [⟨some "1", some "A", some "B", some "a@b.com"⟩,
       ⟨some "42", some "John", some "Doe", some "john@doe.com"⟩] ∧
    ∀ (inputs : List Input) (f : String → String),
      scrapeCurrentUser (inputs.map (fun i => ⟨f i.name, i.value⟩)) = scrapeCurrentUser inputs := by
  constructor
  · decide
  · intro inputs f
    simp [scrapeCurrentUser, inputVal_map_name]

/-- C3: the session-validity check answers true exactly when the jar holds,
for the target domain (per the cookie representation's own domain and expiry
semantics), at least one cookie whose key contains the substring
`"session"`; the check is a pure function of the jar, with no network
round-trip. -/
theorem session_validity_iff (now : Int) (jar : List Cookie) :
    hasValidSession now jar = true ↔
      ∃ c ∈ getCookies now jar targetHost, strIncludes c.key "session" = true := by
  simp [hasValidSession, List.find?_isSome]

/-- C3 witness: the iff instantiated at a jar holding one live session
cookie. -/
theorem session_validity_iff_witness :
    hasValidSession 0 [sessionCookie] = true :=
  (session_validity_iff 0 [sessionCookie]).mpr ⟨sessionCookie, by decide, by decide⟩

/-- A run with no session file loads the empty jar, which never holds a
valid session. -/
lemma no_file_invalid (env : Env) (hfile : env.sessionFile = none) :
    hasValidSession env.now (loadCookies env) = false := by
  have h : loadCookies env = [] := by simp [loadCookies, hfile]
  rw [h]
  rfl

/-- The boolean failure condition of the login submission, as a
proposition. -/
lemma authFailCond_iff (r : AuthResponse) :
    (r.status != 302 || r.setCookies.isEmpty) = true ↔
      (r.status ≠ 302 ∨ r.setCookies = []) := by
  simp [List.isEmpty_iff]

/-- C4 counterexample: a run whose prior session file does contain a cookie
whose name contains `"session"` (here an expired one), yet login requests
are issued — the claim's "zero login requests" clause is false as stated. -/
theorem login_skip_claim_cx :
    (∃ c ∈ envExpiredSession.sessionFile.getD [], strIncludes c.key "session" = true) ∧
    Event.loginPageRequest ∈ (main envExpiredSession).trace ∧
    Event.loginSubmit ∈ (main envExpiredSession).trace := by
  refine ⟨by decide, by decide, by decide⟩

/-- C4 amended: the orchestrator attempts the login handshake exactly when
the loaded session is invalid, persists the session only on such runs after
the login submission, and on runs with no prior session file the
session-file write precedes any authenticated fetch.  ("Prior session file
containing a session-named cookie" must be read through the jar's domain and
expiry semantics: an expired or foreign-domain cookie does not suppress
login.) -/
theorem login_iff_invalid_session (env : Env) :
    ((Event.loginPageRequest ∈ (main env).trace ∨ Event.loginSubmit ∈ (main env).trace) ↔
      hasValidSession env.now (loadCookies env) = false) ∧
    (Event.sessionWrite ∈ (main env).trace →
      hasValidSession env.now (loadCookies env) = false ∧
      Event.loginSubmit ∈ (main env).trace) ∧
    (env.sessionFile = none → Event.usersFetch ∈ (main env).trace →
      (main env).trace.indexOf Event.sessionWrite <
        (main env).trace.indexOf Event.usersFetch) := by
  rcases main_classify env with ⟨h1, _, hm⟩ | ⟨h1, _, hm⟩ | ⟨h1, _, hm⟩ | ⟨h1, _, _, hm⟩ |
    ⟨h1, _, _, _, hm⟩ | ⟨h1, _, _, _, hm⟩
  · refine ⟨by rw [hm, h1]; dsimp only; decide, ?_, ?_⟩
    · rw [hm]; intro hsw; exact absurd hsw (by dsimp only; decide)
    · intro hfile _; rw [no_file_invalid env hfile] at h1; exact absurd h1 (by decide)
  · refine ⟨by rw [hm, h1]; dsimp only; decide, ?_, ?_⟩
    · rw [hm]; intro hsw; exact absurd hsw (by dsimp only; decide)
    · intro hfile _; rw [no_file_invalid env hfile] at h1; exact absurd h1 (by decide)
  · refine ⟨by rw [hm, h1]; dsimp only; decide, ?_, ?_⟩
    · rw [hm]; intro hsw; exact absurd hsw (by dsimp only; decide)
    · rw [hm]; intro _ hmem; exact absurd hmem (by dsimp only; decide)
  · refine ⟨by rw [hm, h1]; dsimp only; decide, ?_, ?_⟩
    · rw [hm]; intro hsw; exact absurd hsw (by dsimp only; decide)
    · rw [hm]; intro _ hmem; exact absurd hmem (by dsimp only; decide)
  · refine ⟨by rw [hm, h1]; dsimp only; decide, ?_, ?_⟩
    · rw [hm]; intro _; exact ⟨h1, by dsimp only; decide⟩
    · rw [hm]; intro _ _; dsimp only; decide
  · refine ⟨by rw [hm, h1]; dsimp only; decide, ?_, ?_⟩
    · rw [hm]; intro _; exact ⟨h1, by dsimp only; decide⟩
    · rw [hm]; intro _ _; dsimp only; decide

/-- C4 witness: on the cold run with no session file, the session write
lands before the users fetch. -/
theorem login_iff_invalid_session_witness :
    (main envNoSession).trace.indexOf Event.sessionWrite <
      (main envNoSession).trace.indexOf Event.usersFetch :=
  (login_iff_invalid_session envNoSession).2.2 rfl (by decide)

/-- On an invalid-session run that authenticates into an error, `main`
reports that error, issues exactly one login-page request (no retry) and
never reaches the output write. -/
lemma auth_error_main (env : Env) (e : Err)
    (hv : hasValidSession env.now (loadCookies env) = false)
    (he : (authenticate env (loadCookies env)).2 = Except.error e) :
    (main env).error = some e ∧ (main env).trace.count Event.loginPageRequest = 1 ∧
    Event.outputWrite ∉ (main env).trace := by
  rcases main_classify env with ⟨h1, _, hm⟩ | ⟨h1, _, hm⟩ | ⟨h1, h2, hm⟩ | ⟨h1, h2, h3, hm⟩ |
    ⟨h1, h2, h3, h4, hm⟩ | ⟨h1, h2, h3, h4, hm⟩
  · rw [h1] at hv; exact absurd hv (by decide)
  · rw [h1] at hv; exact absurd hv (by decide)
  · simp [authenticate, h2] at he
    rw [hm, ← he]
    exact ⟨rfl, by dsimp only; decide, by dsimp only; decide⟩
  · rcases Option.isSome_iff_exists.mp h2 with ⟨v, hv2⟩
    simp [authenticate, hv2, h3] at he
    rw [hm, ← he]
    exact ⟨rfl, by dsimp only; decide, by dsimp only; decide⟩
  · rcases Option.isSome_iff_exists.mp h2 with ⟨v, hv2⟩
    simp [authenticate, hv2, h3] at he
  · rcases Option.isSome_iff_exists.mp h2 with ⟨v, hv2⟩
    simp [authenticate, hv2, h3] at he

/-- C5 amended: the authenticator raises `ProtocolError` exactly when the
value of the first input named `nonce` on the login page is absent or not a
string (cheerio's `.val()` reads the first match only), raises
`AuthenticationError` exactly when a nonce was found but the submission's
status is not 302 or no `Set-Cookie` header is present; on either error the
run aborts with a single login-page request (no retry), and on success all
returned cookies are merged into the session store. -/
theorem authenticate_error_conditions (env : Env) (jar : List Cookie) :
    ((authenticate env jar).2 = Except.error Err.protocolError ↔
      findNonce env.loginInputs = none) ∧
    ((authenticate env jar).2 = Except.error Err.authenticationError ↔
      (findNonce env.loginInputs).isSome = true ∧
      (env.authResp.status ≠ 302 ∨ env.authResp.setCookies = [])) ∧
    (∀ jar2, (authenticate env jar).2 = Except.ok jar2 →
      jar2 = mergeCookies jar env.authResp.setCookies) ∧
    (∀ e, hasValidSession env.now (loadCookies env) = false →
      (authenticate env (loadCookies env)).2 = Except.error e →
      (main env).error = some e ∧ (main env).trace.count Event.loginPageRequest = 1 ∧
      Event.outputWrite ∉ (main env).trace) := by
  refine ⟨?_, ?_, ?_, fun e hv he => auth_error_main env e hv he⟩
  · cases hn : findNonce env.loginInputs
    · simp [authenticate, hn]
    · cases hb : (env.authResp.status != 302 || env.authResp.setCookies.isEmpty) <;>
        simp [authenticate, hn, hb]
  · cases hn : findNonce env.loginInputs
    · simp [authenticate, hn]
    · cases hb : (env.authResp.status != 302 || env.authResp.setCookies.isEmpty) <;>
        simp [authenticate, hn, hb]
      · have h2 := hb
        simp [List.isEmpty_iff] at h2
        exact h2
      · exact (authFailCond_iff env.authResp).mp hb
  · intro jar2 hok
    cases hn : findNonce env.loginInputs
    · simp [authenticate, hn] at hok
    · cases hb : (env.authResp.status != 302 || env.authResp.setCookies.isEmpty) <;>
        simp [authenticate, hn, hb] at hok
      exact hok.symm

/-- C5 counterexample: a login page with two inputs named `nonce`, the first
valueless, does contain a nonce input whose value is a string, and the
submission response is a 302 with a cookie — per the claim no error should
be raised — yet the code raises `ProtocolError`. -/
theorem authenticate_error_conditions_cx :
    (∃ i ∈ envDupNonce.loginInputs, i.name = "nonce" ∧ i.value.isSome = true) ∧
    envDupNonce.authResp.status = 302 ∧ envDupNonce.authResp.setCookies ≠ [] ∧
    (authenticate envDupNonce []).2 = Except.error Err.protocolError := by
  refine ⟨by decide, by decide, by decide, rfl⟩

/-- C5 witness: the nonce-less cold run aborts with `ProtocolError`, one
login-page request and no output write. -/
theorem authenticate_error_conditions_witness :
    (main envNoNonce).error = some Err.protocolError ∧
    (main envNoNonce).trace.count Event.loginPageRequest = 1 ∧
    Event.outputWrite ∉ (main envNoNonce).trace :=
  (authenticate_error_conditions envNoNonce []).2.2.2 Err.protocolError (by decide) rfl

/-- C6 counterexample: a login submission answering 302 with one cookie
whose name does not contain `"session"` satisfies the claim's failure
condition ("no redirect with at least one session cookie", with the spec's
glossary reading of session cookie), yet the run mutates the jar and writes
the output file. -/
theorem auth_failure_atomic_cx :
    (∀ c ∈ envNonSessionCookie.authResp.setCookies, strIncludes c.key "session" = false) ∧
    (main envNonSessionCookie).jar ≠ loadCookies envNonSessionCookie ∧
    (main envNonSessionCookie).outputFile ≠ envNonSessionCookie.prevOutput ∧
    Event.outputWrite ∈ (main envNonSessionCookie).trace := by
  refine ⟨by decide, by decide, by decide, by decide⟩

/-- C6 amended: on every run that attempts authentication (invalid loaded
session) and fails it — login page lacking a usable nonce value, or the
submission not answering 302 with at least one `Set-Cookie` header of any
name — the cookie jar is left unmutated, no session write happens and no
output file is written. -/
theorem auth_failure_atomic (env : Env)
    (hv : hasValidSession env.now (loadCookies env) = false)
    (hbad : findNonce env.loginInputs = none ∨
      env.authResp.status ≠ 302 ∨ env.authResp.setCookies = []) :
    (main env).jar = loadCookies env ∧ (main env).outputFile = env.prevOutput ∧
    Event.outputWrite ∉ (main env).trace ∧ Event.sessionWrite ∉ (main env).trace := by
  rcases main_classify env with ⟨h1, _, hm⟩ | ⟨h1, _, hm⟩ | ⟨h1, h2, hm⟩ | ⟨h1, h2, h3, hm⟩ |
    ⟨h1, h2, h3, h4, hm⟩ | ⟨h1, h2, h3, h4, hm⟩
  · rw [h1] at hv; exact absurd hv (by decide)
  · rw [h1] at hv; exact absurd hv (by decide)
  · rw [hm]; exact ⟨rfl, rfl, by dsimp only; decide, by dsimp only; decide⟩
  · rw [hm]; exact ⟨rfl, rfl, by dsimp only; decide, by dsimp only; decide⟩
  · exfalso
    rcases hbad with hn | hco
    · rw [hn] at h2; exact absurd h2 (by decide)
    · exact absurd ((authFailCond_iff env.authResp).mpr hco) (by simp [h3])
  · exfalso
    rcases hbad with hn | hco
    · rw [hn] at h2; exact absurd h2 (by decide)
    · exact absurd ((authFailCond_iff env.authResp).mpr hco) (by simp [h3])

/-- C6 witness: the cold run whose login submission answers 200 with no
cookies leaves the jar, the session file and the output file untouched. -/
theorem auth_failure_atomic_witness :
    (main envAuthFail).jar = loadCookies envAuthFail ∧
    (main envAuthFail).outputFile = envAuthFail.prevOutput ∧
    Event.outputWrite ∉ (main envAuthFail).trace ∧
    Event.sessionWrite ∉ (main envAuthFail).trace :=
  auth_failure_atomic envAuthFail (by decide) (Or.inr (Or.inl (by decide)))

/-- C7: the users fetch raises `FetchError` exactly for the non-2xx
statuses, and on such a run the output file keeps its previous content, the
output write never happens, and — whenever the run got as far as the users
fetch — the run's error is `FetchError`. -/
theorem users_fetch_error_aborts (env : Env) (jar : List Cookie) :
    ((fetchData env jar).2 = Except.error Err.fetchError ↔
      respOk env.usersResp.status = false) ∧
    (respOk env.usersResp.status = false →
      (main env).outputFile = env.prevOutput ∧ Event.outputWrite ∉ (main env).trace ∧
      (Event.usersFetch ∈ (main env).trace → (main env).error = some Err.fetchError)) := by
  constructor
  · cases hr : respOk env.usersResp.status <;> simp [fetchData, hr]
  · intro hr
    rcases main_classify env with ⟨h1, h2, hm⟩ | ⟨h1, h2, hm⟩ | ⟨h1, h2, hm⟩ | ⟨h1, h2, h3, hm⟩ |
      ⟨h1, h2, h3, h4, hm⟩ | ⟨h1, h2, h3, h4, hm⟩
    · rw [hm]; exact ⟨rfl, by dsimp only; decide, fun _ => rfl⟩
    · rw [h2] at hr; exact absurd hr (by decide)
    · rw [hm]; exact ⟨rfl, by dsimp only; decide, fun hmem => absurd hmem (by dsimp only; decide)⟩
    · rw [hm]; exact ⟨rfl, by dsimp only; decide, fun hmem => absurd hmem (by dsimp only; decide)⟩
    · rw [hm]; exact ⟨rfl, by dsimp only; decide, fun _ => rfl⟩
    · rw [h4] at hr; exact absurd hr (by decide)

/-- C7 witness: the run whose users endpoint answers 500 leaves the previous
output file in place and reports `FetchError`. -/
theorem users_fetch_error_aborts_witness :
    (main envFetchFail).outputFile = envFetchFail.prevOutput ∧
    Event.outputWrite ∉ (main envFetchFail).trace ∧
    (Event.usersFetch ∈ (main envFetchFail).trace →
      (main envFetchFail).error = some Err.fetchError) :=
  (users_fetch_error_aborts envFetchFail []).2 (by decide)

/-- C8: a failed session-file load (file absent or malformed, both modelled
as `sessionFile = none`) never raises: the jar comes up empty and the run
proceeds exactly as a run whose session file holds an empty jar. -/
theorem session_load_nonfatal (env : Env) (hfile : env.sessionFile = none) :
    loadCookies env = [] ∧ main env = main { env with sessionFile := some [] } := by
  constructor
  · simp [loadCookies, hfile]
  · simp only [main, loadCookies, hfile]
    rfl

/-- C8 witness: the cold run with no session file behaves like one with an
empty-jar session file. -/
theorem session_load_nonfatal_witness :
    loadCookies envNoSession = [] ∧
    main envNoSession = main { envNoSession with sessionFile := some [] } :=
  session_load_nonfatal envNoSession rfl

/-- Folding list-append over a list of calls concatenates their payloads. -/
lemma foldl_append_calls (l : List (List PuppeteerCookie)) (acc : List PuppeteerCookie) :
    l.foldl (fun store call => store ++ call) acc = acc ++ l.flatten := by
  induction l generalizing acc with
  | nil => simp
  | cons x xs ih => simp [ih]

/-- Flattening the singleton wrapping of a list gives the list back. -/
lemma flatten_map_singleton (l : List PuppeteerCookie) :
    (l.map (fun pc => [pc])).flatten = l := by
  induction l with
  | nil => rfl
  | cons x xs ih => simp [ih]

/-- C9: the translation of each jar cookie into the rendering engine's
format preserves name, value, domain, path and the secure/http-only flags,
converts a concrete expiry from milliseconds to seconds since the epoch,
maps "no expiry" to the sentinel -1; the transfer loop sets one cookie per
call, and after the loop the browser store holds exactly the translated
cookies in jar order. -/
theorem cookie_translation_fields :
    (∀ c : Cookie,
      (toPuppeteerCookie c).name = c.key ∧ (toPuppeteerCookie c).value = c.value ∧
      (toPuppeteerCookie c).domain = c.domain ∧ (toPuppeteerCookie c).path = c.path ∧
      (toPuppeteerCookie c).secure = c.secure ∧ (toPuppeteerCookie c).httpOnly = c.httpOnly ∧
      (c.expires = none → (toPuppeteerCookie c).expires = -1) ∧
      (∀ ms : Int, c.expires = some ms → (toPuppeteerCookie c).expires = (ms : ℚ) / 1000)) ∧
    (∀ (now : Int) (jar : List Cookie),
      (∀ call ∈ setCookieCalls now jar, call.length = 1) ∧
      pageCookieStore now jar = (getCookies now jar targetHost).map toPuppeteerCookie) := by
  constructor
  · intro c
    refine ⟨rfl, rfl, rfl, rfl, rfl, rfl, ?_, ?_⟩
    · intro h; simp [toPuppeteerCookie, h]
    · intro ms h; simp [toPuppeteerCookie, h]
  · intro now jar
    constructor
    · intro call hc
      unfold setCookieCalls at hc
      obtain ⟨pc, _, rfl⟩ := List.mem_map.mp hc
      rfl
    · unfold pageCookieStore setCookieCalls
      rw [foldl_append_calls, flatten_map_singleton]
      simp

/-- C9 witness: the no-expiry cookie maps to the sentinel and the expiring
cookie's expiry is divided by 1000. -/
theorem cookie_translation_fields_witness :
    (toPuppeteerCookie sessionCookie).expires = -1 ∧
    (toPuppeteerCookie expiredSessionCookie).expires = ((100 : Int) : ℚ) / 1000 :=
  ⟨(cookie_translation_fields.1 sessionCookie).2.2.2.2.2.2.1 rfl,
   (cookie_translation_fields.1 expiredSessionCookie).2.2.2.2.2.2.2 100 rfl⟩

/-- C10: every field of the scraped current-user record is a defined string
(a missing, valueless or empty-valued input yields the empty string), so on
every successful run the last output record has no undefined field — while
list-endpoint records may, as the run with an all-undefined list record
shows. -/
theorem scraped_fields_defined :
    (∀ inputs : List Input,
      (scrapeCurrentUser inputs).id.isSome = true ∧
      (scrapeCurrentUser inputs).firstName.isSome = true ∧
      (scrapeCurrentUser inputs).lastName.isSome = true ∧
      (scrapeCurrentUser inputs).email.isSome = true) ∧
    (∀ inputs : List Input,
      (inputVal inputs 0 = none ∨ inputVal inputs 0 = some "") →
        (scrapeCurrentUser inputs).id = some "") ∧
    (∀ inputs : List Input,
      (inputVal inputs 1 = none ∨ inputVal inputs 1 = some "") →
        (scrapeCurrentUser inputs).firstName = some "") ∧
    (∀ inputs : List Input,
      (inputVal inputs 2 = none ∨ inputVal inputs 2 = some "") →
        (scrapeCurrentUser inputs).lastName = some "") ∧
    (∀ inputs : List Input,
      (inputVal inputs 3 = none ∨ inputVal inputs 3 = some "") →
        (scrapeCurrentUser inputs).email = some "") ∧
    (∀ env, (main env).error = none → ∀ out, (main env).outputFile = some out →
      ∃ u, out.getLast? = some u ∧ u.id.isSome = true ∧ u.firstName.isSome = true ∧
        u.lastName.isSome = true ∧ u.email.isSome = true) ∧
    (∃ out, (main envListUndef).outputFile = some out ∧ ∃ u ∈ out, u.id = none) := by
  refine ⟨fun inputs => ⟨rfl, rfl, rfl, rfl⟩, ?_, ?_, ?_, ?_, ?_, ?_⟩
  · intro inputs h; rcases h with h | h <;> simp [scrapeCurrentUser, jsOrEmpty, h]
  · intro inputs h; rcases h with h | h <;> simp [scrapeCurrentUser, jsOrEmpty, h]
  · intro inputs h; rcases h with h | h <;> simp [scrapeCurrentUser, jsOrEmpty, h]
  · intro inputs h; rcases h with h | h <;> simp [scrapeCurrentUser, jsOrEmpty, h]
  · intro env he out hout
    rcases main_classify env with ⟨_, _, hm⟩ | ⟨_, _, hm⟩ | ⟨_, _, hm⟩ | ⟨_, _, _, hm⟩ |
      ⟨_, _, _, _, hm⟩ | ⟨_, _, _, _, hm⟩
    · rw [hm] at he; exact absurd he (by dsimp only; decide)
    · rw [hm] at hout
      have hx : env.usersResp.body ++ [scrapeCurrentUser env.settingsInputs] = out := by
        simpa using hout
      subst hx
      exact ⟨scrapeCurrentUser env.settingsInputs, List.getLast?_concat _, rfl, rfl, rfl, rfl⟩
    · rw [hm] at he; exact absurd he (by dsimp only; decide)
    · rw [hm] at he; exact absurd he (by dsimp only; decide)
    · rw [hm] at he; exact absurd he (by dsimp only; decide)
    · rw [hm] at hout
      have hx : env.usersResp.body ++ [scrapeCurrentUser env.settingsInputs] = out := by
        simpa using hout
      subst hx
      exact ⟨scrapeCurrentUser env.settingsInputs, List.getLast?_concat _, rfl, rfl, rfl, rfl⟩
  · exact ⟨[⟨none, none, none, none⟩,
      ⟨some "42", some "John", some "Doe", some "john@doe.com"⟩], by decide, by decide⟩

/-- C10 witness: on the run whose list endpoint returns one all-undefined
record, the last output record still has every field defined. -/
theorem scraped_fields_defined_witness :
    ∃ u, ([(⟨none, none, none, none⟩ : User),
        ⟨some "42", some "John", some "Doe", some "john@doe.com"⟩] : List User).getLast? =
      some u ∧ u.id.isSome = true ∧ u.firstName.isSome = true ∧
      u.lastName.isSome = true ∧ u.email.isSome = true :=
  scraped_fields_defined.2.2.2.2.2.1 envListUndef (by decide) _ (by decide)

end Sunvoy
